import Mathlib

/-!
Verification development for the pi_C_867_2U2 stage-controller driver
(src/pi_C_867_2U2.py).  The Python class is shallowly embedded:

* the byte level read loop of _send (lines 118-137) is modelled over byte
  lists, with the serial readline primitive returning the bytes up to and
  including the first newline (a partial line on timeout);
* the stateful methods (move_mm, _finish_moving, _enable_joystick and the
  parameter setters) are modelled in a state + event-trace + exception
  monad M over the cached instance fields.  The scripted device behaviour
  (ERR? reply, MOV? position reply, number of busy status polls) is a
  Device record.  Every write to the serial port is recorded as an Event;
  the decimal rendering of numeric command arguments is abstracted to the
  exact rational value, keeping mnemonic and argument order.  Python
  floats are modelled as rationals, and Python int() as truncation toward
  zero.  An assert failure or raised exception leaves the instance fields
  as they were at the raise point, exactly as a Python exception does.
-/

namespace PiC867

/-- ASCII code of the newline terminator. -/
def NL : Nat := 10

/-- ASCII code of the space character. -/
def SP : Nat := 32

/-- Whitespace bytes stripped by the Python bytes.rstrip default. -/
def isPySpace (b : Nat) : Bool :=
  b = 32 || b = 9 || b = 10 || b = 13 || b = 11 || b = 12

/-- Serial readline: consume bytes up to and including the first newline.
When the pending input holds no newline the partial buffer is returned
(the timeout behaviour of pyserial readline). -/
def readline : List Nat → List Nat × List Nat
  | [] => ([], [])
  | b :: rest =>
    if b = NL then ([b], rest)
    else
      let p := readline rest
      (b :: p.1, p.2)

/-- Python bytes.rstrip: drop trailing whitespace bytes. -/
def pyRstrip (l : List Nat) : List Nat := (l.reverse.dropWhile isPySpace).reverse

/-- Python response.endswith of the newline terminator. -/
def endsWithNL (l : List Nat) : Bool := l.getLast? == some NL

/-- The byte at Python index -2: the byte immediately before the terminator. -/
def penult (l : List Nat) : Option Nat := l.reverse[1]?

/-- The read loop of _send (source lines 124-130): read one line, assert it
ends with the terminator (else a fatal framing assertion), record it with
trailing whitespace stripped, and stop when the line has length 1 or the
byte before the terminator is not a space.  Returns the recorded lines and
the remaining pending input.  The fuel argument bounds the recursion; with
fuel equal to the buffer length the loop semantics is exact, because every
accepted line consumes at least one byte and a read from an exhausted
buffer fails the terminator assertion. -/
def readLoop : Nat → List Nat → Except Unit (List (List Nat) × List Nat)
  | 0, _ => .error ()
  | fuel + 1, buf =>
    let resp := (readline buf).1
    let rest := (readline buf).2
    if endsWithNL resp then
      if resp.length = 1 then .ok ([pyRstrip resp], rest)
      else if penult resp = some SP then
        match readLoop fuel rest with
        | .ok (more, rem) => .ok (pyRstrip resp :: more, rem)
        | .error e => .error e
      else .ok ([pyRstrip resp], rest)
    else .error ()

/-- The respond=True path of _send (source lines 123-135): run the read
loop on the scripted pending input, then assert that no unread bytes
remain (port.in_waiting == 0).  Returns the stripped response lines.  The
trailing ERR? handshake consumes a separate, later reply and is modelled
by check_errors below. -/
def send_receive (buf : List Nat) : Except Unit (List (List Nat)) :=
  match readLoop buf.length buf with
  | .error e => .error e
  | .ok (resps, rest) => if rest = [] then .ok resps else .error ()

/-- A line of a well formed multi-line reply other than the last: it ends
with the terminator, holds no interior newline, and the byte before the
terminator is a space (the continuation convention). -/
def ContinuationLine (l : List Nat) : Prop :=
  l.getLast? = some NL ∧ NL ∉ l.dropLast ∧ penult l = some SP

/-- The final line of a reply: terminated, no interior newline, and either
a bare terminator or a non-space byte before the terminator. -/
def FinalLine (l : List Nat) : Prop :=
  l.getLast? = some NL ∧ NL ∉ l.dropLast ∧
    (l.length = 1 ∨ penult l ≠ some SP)

instance (l : List Nat) : Decidable (ContinuationLine l) := by
  unfold ContinuationLine
  infer_instance

instance (l : List Nat) : Decidable (FinalLine l) := by
  unfold FinalLine
  infer_instance

/-- Errors surfaced by the embedded driver methods: a failed local range
assertion, or a nonzero device error register reported to ERR?. -/
inductive Err where
  | range
  | device (code : Int)
deriving DecidableEq

/-- One write to the serial port: a command line with its mnemonic and
numeric arguments, the ERR? error query, or the raw 0x05 status-poll
byte. -/
inductive Event where
  | cmd (mnemonic : String) (args : List ℚ)
  | errq
  | poll
deriving DecidableEq

/-- The cached instance fields of the Controller object (set up in
the constructor, source lines 22-76). -/
structure Ctrl where
  x : ℚ
  y : ℚ
  x_min : ℚ
  x_max : ℚ
  y_min : ℚ
  y_max : ℚ
  x_ecpu : ℚ
  y_ecpu : ℚ
  xptc : ℤ
  yptc : ℤ
  xptc_max : ℤ
  yptc_max : ℤ
  xpt : ℚ
  ypt : ℚ
  xst : ℚ
  yst : ℚ
  xv : ℚ
  yv : ℚ
  xv_max : ℚ
  yv_max : ℚ
  xa : ℚ
  ya : ℚ
  xa_max : ℚ
  ya_max : ℚ
  xd : ℚ
  yd : ℚ
  xd_max : ℚ
  yd_max : ℚ
  servo_enabled : Bool
  joystick_enabled : Bool
  moving : Bool
deriving DecidableEq

/-- The scripted device at the far end of the serial port: the ERR? reply
code, the position reported to MOV?, and the number of busy replies the
status poll returns before the settled sentinel. -/
structure Device where
  errCode : Int
  posX : ℚ
  posY : ℚ
  busyPolls : Nat
deriving DecidableEq

/-- Result of running an embedded method: the instance fields at return or
raise time, the serial writes issued, and the returned value or raised
error. -/
structure Outcome (α : Type) where
  ctrl : Ctrl
  events : List Event
  result : Except Err α

/-- State + event-trace + exception monad over the controller fields. -/
abbrev M (α : Type) := Ctrl → Outcome α

def M.pure {α : Type} (a : α) : M α := fun c => ⟨c, [], .ok a⟩

def M.bind {α β : Type} (m : M α) (f : α → M β) : M β := fun c =>
  let o := m c
  match o.result with
  | .ok a =>
    let o2 := f a o.ctrl
    ⟨o2.ctrl, o.events ++ o2.events, o2.result⟩
  | .error e => ⟨o.ctrl, o.events, .error e⟩

instance : Monad M where
  pure := M.pure
  bind := M.bind

def getCtrl : M Ctrl := fun c => ⟨c, [], .ok c⟩

def modifyCtrl (f : Ctrl → Ctrl) : M Unit := fun c => ⟨f c, [], .ok ()⟩

def emit (e : Event) : M Unit := fun c => ⟨c, [e], .ok ()⟩

def emitAll (es : List Event) : M Unit := fun c => ⟨c, es, .ok ()⟩

def throwErr {α : Type} (e : Err) : M α := fun c => ⟨c, [], .error e⟩

/-- Model of _check_errors (source lines 139-145): write ERR?, read the scripted
error code, and raise when it is nonzero. -/
def check_errors (dev : Device) : M Unit := do
  emit .errq
  if dev.errCode = 0 then pure () else throwErr (.device dev.errCode)

/-- Model of _send with respond=False (source lines 118-137): write one command
line, then run the mandatory error check. -/
def send (dev : Device) (mnemonic : String) (args : List ℚ) : M Unit := do
  emit (.cmd mnemonic args)
  check_errors dev

/-- get_position_mm (source lines 222-229): query MOV? (a respond=True
send, hence one command write plus the error check) and then cache the
scripted position reply in x and y. -/
def get_position_mm (dev : Device) : M Unit := do
  emit (.cmd "MOV?" [1, 2])
  check_errors dev
  modifyCtrl fun s => { s with x := dev.posX, y := dev.posY }

/-- Model of _enable_joystick (source lines 196-206): two single-axis HIN commands,
then record the new flag value. -/
def enable_joystick (dev : Device) (enable : Bool) : M Unit := do
  if enable then do
    send dev "HIN" [1, 1]
    send dev "HIN" [2, 1]
  else do
    send dev "HIN" [1, 0]
    send dev "HIN" [2, 0]
  modifyCtrl fun s => { s with joystick_enabled := enable }

/-- Model of _finish_moving (source lines 231-244): return at once when no move is
outstanding; otherwise poll the raw motion status until the settled
sentinel (the scripted device answers busy dev.busyPolls times, so the
loop writes busyPolls + 1 status requests), clear the moving flag,
re-enable the joystick on both axes when the cached flag is set, and run
the error check. -/
def finish_moving (dev : Device) : M Unit := do
  let c ← getCtrl
  if c.moving then do
    emitAll (List.replicate (dev.busyPolls + 1) .poll)
    modifyCtrl fun s => { s with moving := false }
    let c2 ← getCtrl
    if c2.joystick_enabled then do
      send dev "HIN" [1, 1]
      send dev "HIN" [2, 1]
    else pure ()
    check_errors dev
  else pure ()

/-- move_mm (source lines 247-268): finish any outstanding move, disable
the joystick on both axes when the cached flag is set, compute the target
(re-reading the device position first for a relative move) and store it in
x and y, assert the x then the y position limit, send MOV, set the moving
flag, and when block is set run the completion wait. -/
def move_mm (dev : Device) (mx my : ℚ) (relative block : Bool) : M Unit := do
  finish_moving dev
  let c ← getCtrl
  if c.joystick_enabled then do
    send dev "HIN" [1, 0]
    send dev "HIN" [2, 0]
  else pure ()
  if relative then do
    get_position_mm dev
    modifyCtrl fun s => { s with x := s.x + mx, y := s.y + my }
  else
    modifyCtrl fun s => { s with x := mx, y := my }
  let c2 ← getCtrl
  if c2.x_min ≤ c2.x ∧ c2.x ≤ c2.x_max then
    if c2.y_min ≤ c2.y ∧ c2.y ≤ c2.y_max then do
      send dev "MOV" [1, c2.x, 2, c2.y]
      modifyCtrl fun s => { s with moving := true }
      if block then finish_moving dev else pure ()
    else throwErr .range
  else throwErr .range

/-- Python int() on a rational: truncation toward zero. -/
def truncQ (q : ℚ) : ℤ := if 0 ≤ q then ⌊q⌋ else -⌊-q⌋

/-- Encoder counts to micrometers: 1e3 * counts / counts_per_unit (source
lines 45-46 and 285-286). -/
def counts_to_micrometers (counts : ℤ) (cpu : ℚ) : ℚ := 1000 * counts / cpu

/-- Micrometers to encoder counts: int(1e-3 * um * counts_per_unit)
(source lines 273-275); over the rationals 1e-3 * um * cpu equals
um * cpu / 1000 exactly. -/
def micrometers_to_counts (um : ℚ) (cpu : ℚ) : ℤ := truncQ (um * cpu / 1000)

/-- set_positional_tolerance_um (source lines 270-290).  Faithful to the
source: the count caches xptc and yptc are overwritten before the two
assertions, the yptc and margin_counts conversions use x_ecpu (lines 274
and 275), the first assertion is strict for x but non-strict for y (line
276), the second SPA command sends the counts minus the raw micrometer
margin (line 284), and the micrometer caches xpt and ypt are recomputed
from the counts, per axis, only after both sends. -/
def set_positional_tolerance_um (dev : Device) (xptArg yptArg : Option ℚ)
    (margin : ℚ) : M Unit := do
  let c0 ← getCtrl
  let xptReq := xptArg.getD c0.xpt
  let yptReq := yptArg.getD c0.ypt
  modifyCtrl fun s => { s with
    xptc := micrometers_to_counts xptReq s.x_ecpu,
    yptc := micrometers_to_counts yptReq s.x_ecpu }
  let c ← getCtrl
  let margin_counts := micrometers_to_counts margin c.x_ecpu
  if c.xptc < c.xptc_max ∧ c.yptc ≤ c.yptc_max then
    if c.xptc - margin_counts > 0 ∧ c.yptc - margin_counts > 0 then do
      send dev "SPA" [1, 0x407, (c.xptc : ℚ), 2, 0x407, (c.yptc : ℚ)]
      send dev "SPA"
        [1, 0x406, (c.xptc : ℚ) - margin, 2, 0x406, (c.yptc : ℚ) - margin]
      modifyCtrl fun s => { s with
        xpt := counts_to_micrometers s.xptc s.x_ecpu,
        ypt := counts_to_micrometers s.yptc s.y_ecpu }
    else throwErr .range
  else throwErr .range

/-- set_settling_time_ms (source lines 292-304): default omitted arguments
to the cache, store the new values, assert the [0, 1000] policy bound, and
send SPA 0x3F with the values converted to seconds. -/
def set_settling_time_ms (dev : Device) (xstArg ystArg : Option ℚ) : M Unit := do
  let c0 ← getCtrl
  let xstReq := xstArg.getD c0.xst
  let ystReq := ystArg.getD c0.yst
  modifyCtrl fun s => { s with xst := xstReq, yst := ystReq }
  let c ← getCtrl
  if 0 ≤ c.xst ∧ c.xst ≤ 1000 ∧ 0 ≤ c.yst ∧ c.yst ≤ 1000 then
    send dev "SPA" [1, 0x3F, c.xst / 1000, 2, 0x3F, c.yst / 1000]
  else throwErr .range

/-- set_velocity (source lines 306-317). -/
def set_velocity (dev : Device) (xvArg yvArg : Option ℚ) : M Unit := do
  let c0 ← getCtrl
  let xvReq := xvArg.getD c0.xv
  let yvReq := yvArg.getD c0.yv
  modifyCtrl fun s => { s with xv := xvReq, yv := yvReq }
  let c ← getCtrl
  if 0 ≤ c.xv ∧ c.xv ≤ c.xv_max ∧ 0 ≤ c.yv ∧ c.yv ≤ c.yv_max then
    send dev "VEL" [1, c.xv, 2, c.yv]
  else throwErr .range

/-- set_acceleration (source lines 319-330). -/
def set_acceleration (dev : Device) (xaArg yaArg : Option ℚ) : M Unit := do
  let c0 ← getCtrl
  let xaReq := xaArg.getD c0.xa
  let yaReq := yaArg.getD c0.ya
  modifyCtrl fun s => { s with xa := xaReq, ya := yaReq }
  let c ← getCtrl
  if 0 ≤ c.xa ∧ c.xa ≤ c.xa_max ∧ 0 ≤ c.ya ∧ c.ya ≤ c.ya_max then
    send dev "ACC" [1, c.xa, 2, c.ya]
  else throwErr .range

/-- set_deceleration (source lines 332-343).  Faithful to the source: the
command sent on line 339 carries the ACC mnemonic, not DEC. -/
def set_deceleration (dev : Device) (xdArg ydArg : Option ℚ) : M Unit := do
  let c0 ← getCtrl
  let xdReq := xdArg.getD c0.xd
  let ydReq := ydArg.getD c0.yd
  modifyCtrl fun s => { s with xd := xdReq, yd := ydReq }
  let c ← getCtrl
  if 0 ≤ c.xd ∧ c.xd ≤ c.xd_max ∧ 0 ≤ c.yd ∧ c.yd ≤ c.yd_max then
    send dev "ACC" [1, c.xd, 2, c.yd]
  else throwErr .range

/-- The writes of one pass of the completion wait: the status polls until
the settled sentinel, then, when the joystick flag is set, the two HIN
re-enable commands with their error checks, then the final error check. -/
def finPollEvents (dev : Device) (joy : Bool) : List Event :=
  List.replicate (dev.busyPolls + 1) .poll ++
    (if joy then [.cmd "HIN" [1, 1], .errq, .cmd "HIN" [2, 1], .errq, .errq]
    else [.errq])

/-- The writes of the joystick-disable step of move_mm. -/
def hinOffEvents : List Event :=
  [.cmd "HIN" [1, 0], .errq, .cmd "HIN" [2, 0], .errq]

/-- A computation preserves the cached joystick flag: whatever state it
starts from, the flag at return or raise time equals the starting flag. -/
def JoyPres {α : Type} (m : M α) : Prop :=
  ∀ c : Ctrl, (m c).ctrl.joystick_enabled = c.joystick_enabled

/-- Recognises a joystick-disable write (HIN with value argument 0). -/
def isHinOff : Event → Bool
  | .cmd "HIN" [_, v] => decide (v = 0)
  | _ => false

/-- Recognises a joystick-enable write (HIN with value argument 1). -/
def isHinOn : Event → Bool
  | .cmd "HIN" [_, v] => decide (v = 1)
  | _ => false

/-- Recognises a MOV move-command write (not the MOV? query). -/
def isMovCmd : Event → Bool
  | .cmd "MOV" _ => true
  | _ => false

/-- A concrete populated instance used as the base of the concrete test
states below. -/
def baseCtrl : Ctrl where
  x := 0
  y := 0
  x_min := -10
  x_max := 110
  y_min := -20
  y_max := 120
  x_ecpu := 1000
  y_ecpu := 1000
  xptc := 2
  yptc := 2
  xptc_max := 100
  yptc_max := 100
  xpt := 2
  ypt := 2
  xst := 50
  yst := 50
  xv := 1
  yv := 1
  xv_max := 125
  yv_max := 125
  xa := 10
  ya := 10
  xa_max := 625
  ya_max := 625
  xd := 10
  yd := 10
  xd_max := 625
  yd_max := 625
  servo_enabled := true
  joystick_enabled := true
  moving := false

/-- A scripted device that reports no error, position (3, 4), and one busy
status reply before the settled sentinel. -/
def okDev : Device where
  errCode := 0
  posX := 3
  posY := 4
  busyPolls := 1

/-- A scripted device that reports device error 5. -/
def errDev : Device where
  errCode := 5
  posX := 3
  posY := 4
  busyPolls := 1

/-- A concrete state whose y tolerance bound is 10 counts, used to probe
the boundary of the tolerance-set assertion. -/
def c1Ctrl : Ctrl := { baseCtrl with yptc_max := 10 }

/-- A concrete state whose axes have different counts-per-unit ratios
(10000 counts per mm on x, 1000 on y), used to probe the per-axis
tolerance conversion. -/
def c8Ctrl : Ctrl := { baseCtrl with x_ecpu := 10000, y_ecpu := 1000 }

/-! ## Helper lemmas -/

/-- Truncation toward zero is the identity on integers. -/
theorem truncQ_intCast (k : ℤ) : truncQ (k : ℚ) = k := by
  unfold truncQ
  split
  · exact Int.floor_intCast k
  · rw [show (-(k : ℚ)) = ((-k : ℤ) : ℚ) by push_cast ; ring, Int.floor_intCast]
    ring

/-- readline returns exactly a prefixed line that ends with the newline
and holds no interior newline, leaving the remaining bytes pending. -/
theorem readline_exact : ∀ (l rest : List Nat), l.getLast? = some NL →
    NL ∉ l.dropLast → readline (l ++ rest) = (l, rest)
  | [], _, h1, _ => by simp at h1
  | [b], rest, h1, h2 => by
    simp at h1
    subst h1
    simp [readline]
  | b :: c :: t2, rest, h1, h2 => by
    have hb : b ≠ NL := by
      intro hEq
      exact h2 (by simp [hEq])
    have ihr := readline_exact (c :: t2) rest (by simpa using h1)
      (fun hm => h2 (by simp [hm]))
    rw [List.cons_append, readline]
    rw [if_neg hb]
    rw [List.cons_append] at ihr
    simp [ihr]

/-- readline on a buffer holding no newline consumes the whole buffer (the
timeout behaviour). -/
theorem readline_no_nl : ∀ (l : List Nat), NL ∉ l → readline l = (l, [])
  | [], _ => by simp [readline]
  | b :: t, h => by
    have hb : b ≠ NL := by
      intro hEq
      exact h (by simp [hEq])
    have ihr := readline_no_nl t (fun hm => h (by simp [hm]))
    rw [readline, if_neg hb]
    simp [ihr]

/-- A continuation line has at least two bytes. -/
theorem ContinuationLine.length_ne_one {l : List Nat} (h : ContinuationLine l) :
    l.length ≠ 1 := by
  obtain ⟨-, -, h3⟩ := h
  intro hlen
  rw [penult] at h3
  have : l.reverse.length = 1 := by simpa using hlen
  rw [List.getElem?_eq_none (by omega)] at h3
  exact Option.noConfusion h3

/-- A line ending with the newline terminator passes the endswith check. -/
theorem endsWithNL_of_getLast {l : List Nat} (h : l.getLast? = some NL) :
    endsWithNL l = true := by
  simp [endsWithNL, h]

/-- The read loop on a well formed reply (continuation lines, then a final
line, then any leftover bytes) returns exactly the stripped lines and
leaves the leftover pending. -/
theorem readLoop_exact (pre : List (List Nat)) (lst : List Nat)
    (extra : List Nat) (fuel : Nat)
    (hpre : ∀ l ∈ pre, ContinuationLine l) (hlast : FinalLine lst)
    (hfuel : ((pre ++ [lst]).flatten ++ extra).length ≤ fuel) :
    readLoop fuel ((pre ++ [lst]).flatten ++ extra) =
      .ok ((pre ++ [lst]).map pyRstrip, extra) := by
  induction pre generalizing fuel with
  | nil =>
    obtain ⟨h1, h2, h3⟩ := hlast
    have hlen : 1 ≤ lst.length := by
      cases lst with
      | nil => simp at h1
      | cons b t => simp
    obtain ⟨f, rfl⟩ : ∃ f, fuel = f + 1 := by
      refine ⟨fuel - 1, ?_⟩
      simp at hfuel
      omega
    simp only [readLoop, List.nil_append, List.flatten_cons, List.flatten_nil,
      List.append_nil]
    rw [readline_exact lst extra h1 h2]
    simp only [endsWithNL_of_getLast h1, if_true]
    rcases h3 with h3 | h3
    · simp [h3]
    · rcases Nat.eq_or_lt_of_le hlen with h | h
      · have h3a : lst.length = 1 := h.symm
        simp [h3a]
      · have h3a : lst.length ≠ 1 := by omega
        simp [h3a, h3]
  | cons l pre2 ih =>
    have hl : ContinuationLine l := hpre l (by simp)
    obtain ⟨h1, h2, h3⟩ := hl
    have hlen : 1 ≤ l.length := by
      cases l with
      | nil => simp at h1
      | cons b t => simp
    obtain ⟨f, rfl⟩ : ∃ f, fuel = f + 1 := by
      refine ⟨fuel - 1, ?_⟩
      simp at hfuel
      omega
    have hbuf : ((l :: pre2) ++ [lst]).flatten ++ extra =
        l ++ ((pre2 ++ [lst]).flatten ++ extra) := by
      simp
    rw [hbuf]
    simp only [readLoop]
    rw [readline_exact l ((pre2 ++ [lst]).flatten ++ extra) h1 h2]
    simp only [endsWithNL_of_getLast h1, if_true]
    have hne1 : l.length ≠ 1 := ContinuationLine.length_ne_one ⟨h1, h2, h3⟩
    rw [if_neg hne1, if_pos h3]
    have hpre2 : ∀ m ∈ pre2, ContinuationLine m :=
      fun m hm => hpre m (List.mem_cons_of_mem _ hm)
    have hfuel2 : ((pre2 ++ [lst]).flatten ++ extra).length ≤ f := by
      simp only [List.cons_append, List.flatten_cons, List.append_assoc,
        List.length_append] at hfuel
      simp only [List.length_append]
      omega
    rw [ih f hpre2 hfuel2]
    simp

/-- The read loop fails the terminator assertion when the pending input is
a run of continuation lines followed by a buffer holding no newline: the
read after the continuation lines returns an unterminated line. -/
theorem readLoop_no_terminator (pre : List (List Nat)) (tail : List Nat)
    (fuel : Nat) (hpre : ∀ l ∈ pre, ContinuationLine l) (htail : NL ∉ tail)
    (hfuel : (pre.flatten ++ tail).length ≤ fuel) :
    readLoop fuel (pre.flatten ++ tail) = .error () := by
  induction pre generalizing fuel with
  | nil =>
    cases fuel with
    | zero => simp [readLoop]
    | succ f =>
      simp only [readLoop, List.flatten_nil, List.nil_append]
      rw [readline_no_nl tail htail]
      have hfalse : endsWithNL tail = false := by
        cases h : tail.getLast? with
        | none => simp [endsWithNL, h]
        | some b =>
          have hglb := List.dropLast_append_getLast? b (Option.mem_def.mpr h)
          have hb : b ∈ tail := by
            rw [← hglb]
            simp
          have hbn : b ≠ NL := fun hEq => htail (hEq ▸ hb)
          simp [endsWithNL, h, hbn]
      simp [hfalse]
  | cons l pre2 ih =>
    have hl : ContinuationLine l := hpre l (by simp)
    obtain ⟨h1, h2, h3⟩ := hl
    have hlen : 1 ≤ l.length := by
      cases l with
      | nil => simp at h1
      | cons b t => simp
    obtain ⟨f, rfl⟩ : ∃ f, fuel = f + 1 := by
      refine ⟨fuel - 1, ?_⟩
      simp at hfuel
      omega
    have hbuf : (l :: pre2).flatten ++ tail = l ++ (pre2.flatten ++ tail) := by
      simp
    rw [hbuf]
    simp only [readLoop]
    rw [readline_exact l (pre2.flatten ++ tail) h1 h2]
    simp only [endsWithNL_of_getLast h1, if_true]
    have hne1 : l.length ≠ 1 := ContinuationLine.length_ne_one ⟨h1, h2, h3⟩
    rw [if_neg hne1, if_pos h3]
    have hpre2 : ∀ m ∈ pre2, ContinuationLine m :=
      fun m hm => hpre m (List.mem_cons_of_mem _ hm)
    have hfuel2 : (pre2.flatten ++ tail).length ≤ f := by
      simp only [List.flatten_cons, List.append_assoc, List.length_append]
        at hfuel
      simp only [List.length_append]
      omega
    rw [ih f hpre2 hfuel2]

/-- Monadic bind on M unfolds to M.bind. -/
theorem bind_eq {α β : Type} (m : M α) (f : α → M β) : m >>= f = M.bind m f := rfl

/-- Monadic pure on M unfolds to M.pure. -/
theorem pure_eq {α : Type} (a : α) : (pure a : M α) = M.pure a := rfl

/-- Running check_errors: one ERR? write; the scripted code decides the
outcome. -/
theorem check_errors_run (dev : Device) (c : Ctrl) :
    check_errors dev c =
      ⟨c, [.errq],
        if dev.errCode = 0 then .ok () else .error (.device dev.errCode)⟩ := by
  by_cases h : dev.errCode = 0 <;>
    simp [check_errors, emit, throwErr, bind_eq, pure_eq, M.bind, M.pure, h]

/-- Running send: the command write, the ERR? write, and the scripted
outcome; the cached fields are untouched. -/
theorem send_run (dev : Device) (mn : String) (args : List ℚ) (c : Ctrl) :
    send dev mn args c =
      ⟨c, [.cmd mn args, .errq],
        if dev.errCode = 0 then .ok () else .error (.device dev.errCode)⟩ := by
  by_cases h : dev.errCode = 0 <;>
    simp [send, check_errors_run, emit, bind_eq, M.bind, h]

/-- Running get_position_mm: the MOV? write and error check; on success
the cached position becomes the scripted device position. -/
theorem get_position_mm_run (dev : Device) (c : Ctrl) :
    get_position_mm dev c =
      if dev.errCode = 0 then
        ⟨{ c with x := dev.posX, y := dev.posY },
          [.cmd "MOV?" [1, 2], .errq], .ok ()⟩
      else ⟨c, [.cmd "MOV?" [1, 2], .errq], .error (.device dev.errCode)⟩ := by
  by_cases h : dev.errCode = 0 <;>
    simp [get_position_mm, check_errors_run, emit, modifyCtrl, bind_eq,
      M.bind, h]

/-- Running finish_moving against a device that reports no error. -/
theorem finish_moving_run_ok (dev : Device) (c : Ctrl) (h : dev.errCode = 0) :
    finish_moving dev c =
      if c.moving then
        ⟨{ c with moving := false },
          List.replicate (dev.busyPolls + 1) .poll ++
            (if c.joystick_enabled then
              [.cmd "HIN" [1, 1], .errq, .cmd "HIN" [2, 1], .errq, .errq]
            else [.errq]),
          .ok ()⟩
      else ⟨c, [], .ok ()⟩ := by
  by_cases hm : c.moving <;> by_cases hj : c.joystick_enabled <;>
    simp [finish_moving, send_run, check_errors_run, emitAll, getCtrl,
      modifyCtrl, bind_eq, pure_eq, M.bind, M.pure, h, hm, hj]

/-! ## Claim theorems -/

/-- C5: for a scripted reply made of continuation lines (trailing space
before the terminator) followed by one final line, _send with respond=True
returns exactly the lines in order with terminators and trailing
whitespace stripped, stopping exactly at the first line of length 1 or
whose byte before the terminator is not a space; it fails the framing
assertion when unread bytes remain after the final line, and when the
reply ends in a line that does not end with the terminator. -/
theorem C5_send_receive_framing (pre : List (List Nat)) (lst : List Nat)
    (hpre : ∀ l ∈ pre, ContinuationLine l) (hlast : FinalLine lst) :
    send_receive ((pre ++ [lst]).flatten) =
      .ok ((pre ++ [lst]).map pyRstrip) ∧
    (∀ extra : List Nat, extra ≠ [] →
      send_receive ((pre ++ [lst]).flatten ++ extra) = .error ()) ∧
    (∀ tail : List Nat, NL ∉ tail →
      send_receive (pre.flatten ++ tail) = .error ()) := by
  refine ⟨?_, ?_, ?_⟩
  · have h := readLoop_exact pre lst [] ((pre ++ [lst]).flatten).length hpre hlast
      (by simp)
    rw [List.append_nil] at h
    rw [send_receive, h]
    simp
  · intro extra hne
    have h := readLoop_exact pre lst extra ((pre ++ [lst]).flatten ++ extra).length
      hpre hlast (by simp)
    rw [send_receive, h]
    simp [hne]
  · intro tail htail
    have h := readLoop_no_terminator pre tail (pre.flatten ++ tail).length hpre
      htail (by simp)
    rw [send_receive, h]

/-- Witness for C5: the two-line reply "A \n" then "B\n" is returned as
the stripped lines "A" and "B". -/
theorem C5_send_receive_framing_witness :
    send_receive [65, 32, 10, 66, 10] = .ok [[65], [66]] :=
  (C5_send_receive_framing [[65, 32, 10]] [66, 10] (by decide) (by decide)).1

/-- C7: for every positive counts-per-unit ratio and every count value in
[0, 10^7], converting counts to micrometers and back to counts (with
truncation toward zero) returns the original count within plus or minus
one; over the rationals the round trip is in fact exact. -/
theorem C7_conversion_roundtrip (cpu : ℚ) (counts : ℤ)
    (hcpu : 0 < cpu) (h0 : 0 ≤ counts) (h7 : counts ≤ 10 ^ 7) :
    (micrometers_to_counts (counts_to_micrometers counts cpu) cpu
      - counts).natAbs ≤ 1 := by
  have hne : cpu ≠ 0 := ne_of_gt hcpu
  have h1 : counts_to_micrometers counts cpu * cpu / 1000 = ((counts : ℤ) : ℚ) := by
    rw [counts_to_micrometers]
    field_simp
  rw [micrometers_to_counts, h1, truncQ_intCast]
  simp

/-- Witness for C7 at cpu = 2 and counts = 5. -/
theorem C7_conversion_roundtrip_witness :
    (micrometers_to_counts (counts_to_micrometers 5 2) 2 - 5).natAbs ≤ 1 :=
  C7_conversion_roundtrip 2 5 (by norm_num) (by norm_num) (by norm_num)

/-! ## Joystick-flag frame lemmas -/

theorem joyPres_bind {α β : Type} {m : M α} {f : α → M β}
    (h1 : JoyPres m) (h2 : ∀ a, JoyPres (f a)) : JoyPres (M.bind m f) := by
  intro c
  unfold M.bind
  cases hres : (m c).result with
  | ok a =>
    simp only [hres]
    exact (h2 a (m c).ctrl).trans (h1 c)
  | error e => simpa [hres] using h1 c

theorem joyPres_bindDo {α β : Type} {m : M α} {f : α → M β}
    (h1 : JoyPres m) (h2 : ∀ a, JoyPres (f a)) : JoyPres (m >>= f) := by
  rw [bind_eq]
  exact joyPres_bind h1 h2

theorem joyPres_pureDo {α : Type} (a : α) : JoyPres (pure a : M α) := by
  intro c
  rfl

theorem joyPres_getCtrl : JoyPres getCtrl := by
  intro c
  rfl

theorem joyPres_emit (e : Event) : JoyPres (emit e) := by
  intro c
  rfl

theorem joyPres_emitAll (es : List Event) : JoyPres (emitAll es) := by
  intro c
  rfl

theorem joyPres_throwErr {α : Type} (e : Err) : JoyPres (throwErr e : M α) := by
  intro c
  rfl

theorem joyPres_modifyCtrl {f : Ctrl → Ctrl}
    (h : ∀ c, (f c).joystick_enabled = c.joystick_enabled) :
    JoyPres (modifyCtrl f) := h

theorem joyPres_ite {α : Type} (P : Prop) [Decidable P] {m1 m2 : M α}
    (h1 : JoyPres m1) (h2 : JoyPres m2) : JoyPres (if P then m1 else m2) := by
  by_cases h : P
  · simpa [h] using h1
  · simpa [h] using h2

theorem joyPres_check_errors (dev : Device) : JoyPres (check_errors dev) := by
  intro c
  rw [check_errors_run]

theorem joyPres_send (dev : Device) (mn : String) (args : List ℚ) :
    JoyPres (send dev mn args) := by
  intro c
  rw [send_run]

theorem joyPres_get_position_mm (dev : Device) :
    JoyPres (get_position_mm dev) := by
  intro c
  rw [get_position_mm_run]
  by_cases h : dev.errCode = 0 <;> simp [h]

theorem joyPres_finish_moving (dev : Device) : JoyPres (finish_moving dev) := by
  unfold finish_moving
  repeat'
    first
      | refine joyPres_ite _ ?_ ?_
      | refine joyPres_bindDo ?_ fun _ => ?_
      | exact joyPres_check_errors dev
      | exact joyPres_pureDo _
      | exact joyPres_getCtrl
      | exact joyPres_emitAll _
      | exact joyPres_send dev _ _
      | exact joyPres_throwErr _
      | exact joyPres_modifyCtrl (by simp)

theorem joyPres_move_mm (dev : Device) (mx my : ℚ) (relative block : Bool) :
    JoyPres (move_mm dev mx my relative block) := by
  unfold move_mm
  repeat'
    first
      | refine joyPres_ite _ ?_ ?_
      | refine joyPres_bindDo ?_ fun _ => ?_
      | exact joyPres_check_errors dev
      | exact joyPres_pureDo _
      | exact joyPres_getCtrl
      | exact joyPres_emitAll _
      | exact joyPres_send dev _ _
      | exact joyPres_get_position_mm dev
      | exact joyPres_finish_moving dev
      | exact joyPres_throwErr _
      | exact joyPres_modifyCtrl (by simp)

/-- C10: move_mm never modifies the cached joystick flag, in any state and
against any scripted device, although it writes joystick-disable
commands; enable_joystick is the operation that sets the flag; and for an
outstanding move, finish_moving writes the two joystick re-enable
commands exactly when the cached flag is set, else none. -/
theorem C10_joystick_flag_frame :
    (∀ (dev : Device) (c : Ctrl) (mx my : ℚ) (relative block : Bool),
      (move_mm dev mx my relative block c).ctrl.joystick_enabled
        = c.joystick_enabled) ∧
    (∀ (dev : Device) (enable : Bool) (c : Ctrl), dev.errCode = 0 →
      (enable_joystick dev enable c).ctrl.joystick_enabled = enable) ∧
    (∀ (dev : Device) (c : Ctrl), dev.errCode = 0 → c.moving = true →
      (finish_moving dev c).events.countP isHinOn
        = if c.joystick_enabled then 2 else 0) := by
  refine ⟨?_, ?_, ?_⟩
  · intro dev c mx my relative block
    exact joyPres_move_mm dev mx my relative block c
  · intro dev enable c h
    cases enable <;>
      simp [enable_joystick, send_run, modifyCtrl, bind_eq, M.bind, h]
  · intro dev c h hm
    rw [finish_moving_run_ok dev c h]
    by_cases hj : c.joystick_enabled <;>
      simp [hm, hj, List.countP_append, List.countP_cons, isHinOn,
        List.countP_eq_zero, List.mem_replicate]

/-- Witness for C10 at a concrete state: a blocking absolute move leaves
the flag set, enable_joystick false clears it, and finish_moving on an
outstanding move with the flag set writes two re-enable commands. -/
theorem C10_joystick_flag_frame_witness :
    (move_mm okDev 1 1 false true baseCtrl).ctrl.joystick_enabled
      = baseCtrl.joystick_enabled ∧
    (enable_joystick okDev false baseCtrl).ctrl.joystick_enabled = false ∧
    (finish_moving okDev { baseCtrl with moving := true }).events.countP isHinOn
      = 2 := by
  refine ⟨C10_joystick_flag_frame.1 okDev baseCtrl 1 1 false true,
    C10_joystick_flag_frame.2.1 okDev false baseCtrl rfl, ?_⟩
  have h := C10_joystick_flag_frame.2.2 okDev { baseCtrl with moving := true }
    rfl rfl
  simpa [baseCtrl] using h

/-- Running move_mm on a target that fails the limit assertions: the
position cache holds the rejected target, the moving flag is clear, the
writes are those of finishing the previous move, disabling the joystick,
and the relative-move position query, and the outcome is the range
error. -/
theorem move_mm_run_reject (dev : Device) (c : Ctrl) (mx my : ℚ)
    (relative block : Bool) (h : dev.errCode = 0)
    (hout : ¬(c.x_min ≤ (if relative then dev.posX + mx else mx) ∧
        (if relative then dev.posX + mx else mx) ≤ c.x_max ∧
        c.y_min ≤ (if relative then dev.posY + my else my) ∧
        (if relative then dev.posY + my else my) ≤ c.y_max)) :
    move_mm dev mx my relative block c =
      ⟨{ c with x := if relative then dev.posX + mx else mx,
                y := if relative then dev.posY + my else my,
                moving := false },
        (if c.moving then
          List.replicate (dev.busyPolls + 1) Event.poll ++
            (if c.joystick_enabled then
              [.cmd "HIN" [1, 1], .errq, .cmd "HIN" [2, 1], .errq, .errq]
            else [.errq])
        else []) ++
        (if c.joystick_enabled then
          [.cmd "HIN" [1, 0], .errq, .cmd "HIN" [2, 0], .errq]
        else []) ++
        (if relative then [Event.cmd "MOV?" [1, 2], .errq] else []),
        .error .range⟩ := by
  cases relative <;> simp only [Bool.false_eq_true, if_true, if_false] at hout ⊢
  · by_cases hx : c.x_min ≤ mx ∧ mx ≤ c.x_max
    · have hy : ¬(c.y_min ≤ my ∧ my ≤ c.y_max) := fun hcd =>
        hout ⟨hx.1, hx.2, hcd.1, hcd.2⟩
      by_cases hm : c.moving <;> by_cases hj : c.joystick_enabled <;>
        simp [move_mm, finish_moving_run_ok, send_run, get_position_mm_run,
          getCtrl, modifyCtrl, throwErr, bind_eq, pure_eq, M.bind, M.pure,
          h, hm, hj, hx, hy]
    · by_cases hm : c.moving <;> by_cases hj : c.joystick_enabled <;>
        simp [move_mm, finish_moving_run_ok, send_run, get_position_mm_run,
          getCtrl, modifyCtrl, throwErr, bind_eq, pure_eq, M.bind, M.pure,
          h, hm, hj, hx]
  · by_cases hx : c.x_min ≤ dev.posX + mx ∧ dev.posX + mx ≤ c.x_max
    · have hy : ¬(c.y_min ≤ dev.posY + my ∧ dev.posY + my ≤ c.y_max) :=
        fun hcd => hout ⟨hx.1, hx.2, hcd.1, hcd.2⟩
      by_cases hm : c.moving <;> by_cases hj : c.joystick_enabled <;>
        simp [move_mm, finish_moving_run_ok, send_run, get_position_mm_run,
          getCtrl, modifyCtrl, throwErr, bind_eq, pure_eq, M.bind, M.pure,
          h, hm, hj, hx, hy]
    · by_cases hm : c.moving <;> by_cases hj : c.joystick_enabled <;>
        simp [move_mm, finish_moving_run_ok, send_run, get_position_mm_run,
          getCtrl, modifyCtrl, throwErr, bind_eq, pure_eq, M.bind, M.pure,
          h, hm, hj, hx]

/-- C4 (amended): an absolute move_mm to a target outside the cached
position limits raises the range assertion and never sends the MOV
command; but the rejection is not free of writes in general: finishing an
outstanding move and the joystick-disable commands precede the validation,
so zero bytes are written only when the stage is idle and the joystick
flag is clear. -/
theorem C4_move_mm_range_rejection (dev : Device) (c : Ctrl) (mx my : ℚ)
    (block : Bool) (h : dev.errCode = 0)
    (hout : ¬(c.x_min ≤ mx ∧ mx ≤ c.x_max ∧ c.y_min ≤ my ∧ my ≤ c.y_max)) :
    (move_mm dev mx my false block c).result = .error .range ∧
    (move_mm dev mx my false block c).events.countP isMovCmd = 0 ∧
    (c.moving = false → c.joystick_enabled = false →
      (move_mm dev mx my false block c).events = []) := by
  have hrun := move_mm_run_reject dev c mx my false block h (by simpa using hout)
  rw [hrun]
  refine ⟨rfl, ?_, ?_⟩
  · by_cases hm : c.moving <;> by_cases hj : c.joystick_enabled <;>
      simp [hm, hj, List.countP_append, List.countP_cons, isMovCmd,
        List.countP_eq_zero]
  · intro hm hj
    simp [hm, hj]

/-- Counterexample for C4 as stated: with the joystick flag set (the state
the constructor leaves) an absolute move to x = 200 outside [-10, 110]
raises the range assertion, yet the two joystick-disable commands and
their error checks have already been written, so the transport saw bytes. -/
theorem C4_counterexample :
    (move_mm okDev 200 0 false true baseCtrl).result = .error .range ∧
    (move_mm okDev 200 0 false true baseCtrl).events =
      [.cmd "HIN" [1, 0], .errq, .cmd "HIN" [2, 0], .errq] := by
  constructor <;> rfl

/-- Witness for C4 at a concrete out-of-range call on an idle stage with
the joystick flag clear: range error, no MOV write, no bytes at all. -/
theorem C4_move_mm_range_rejection_witness :
    (move_mm okDev 200 0 false true
      { baseCtrl with joystick_enabled := false }).result = .error .range ∧
    (move_mm okDev 200 0 false true
      { baseCtrl with joystick_enabled := false }).events = [] := by
  have h := C4_move_mm_range_rejection okDev
    { baseCtrl with joystick_enabled := false } 200 0 true rfl
    (by norm_num [baseCtrl])
  exact ⟨h.1, h.2.2 rfl rfl⟩

/-- C9: when move_mm raises the range assertion, the cached position has
already been overwritten with the rejected target (absolute target, or
re-read position plus delta), so after the failed call the driver caches
the rejected target rather than the previous position. -/
theorem C9_position_cache_on_range_error (dev : Device) (c : Ctrl)
    (mx my : ℚ) (relative block : Bool) (h : dev.errCode = 0)
    (hout : ¬(c.x_min ≤ (if relative then dev.posX + mx else mx) ∧
        (if relative then dev.posX + mx else mx) ≤ c.x_max ∧
        c.y_min ≤ (if relative then dev.posY + my else my) ∧
        (if relative then dev.posY + my else my) ≤ c.y_max)) :
    (move_mm dev mx my relative block c).result = .error .range ∧
    (move_mm dev mx my relative block c).ctrl.x
      = (if relative then dev.posX + mx else mx) ∧
    (move_mm dev mx my relative block c).ctrl.y
      = (if relative then dev.posY + my else my) := by
  rw [move_mm_run_reject dev c mx my relative block h hout]
  exact ⟨rfl, rfl, rfl⟩

/-- Witness for C9: the failed absolute move to (200, 0) leaves 200 in the
cached x position. -/
theorem C9_position_cache_on_range_error_witness :
    (move_mm okDev 200 0 false true baseCtrl).result = .error .range ∧
    (move_mm okDev 200 0 false true baseCtrl).ctrl.x = 200 ∧
    (move_mm okDev 200 0 false true baseCtrl).ctrl.y = 0 := by
  have h := C9_position_cache_on_range_error okDev baseCtrl 200 0 false true
    rfl (by norm_num [baseCtrl])
  simpa using h

/-! ## Parameter-setter run lemmas -/

theorem set_velocity_run (dev : Device) (c : Ctrl) (xa ya : Option ℚ) :
    set_velocity dev xa ya c =
      (if 0 ≤ xa.getD c.xv ∧ xa.getD c.xv ≤ c.xv_max ∧
          0 ≤ ya.getD c.yv ∧ ya.getD c.yv ≤ c.yv_max then
        ⟨{ c with xv := xa.getD c.xv, yv := ya.getD c.yv },
          [.cmd "VEL" [1, xa.getD c.xv, 2, ya.getD c.yv], .errq],
          if dev.errCode = 0 then .ok () else .error (.device dev.errCode)⟩
      else ⟨{ c with xv := xa.getD c.xv, yv := ya.getD c.yv }, [],
        .error .range⟩) := by
  by_cases hr : 0 ≤ xa.getD c.xv ∧ xa.getD c.xv ≤ c.xv_max ∧
      0 ≤ ya.getD c.yv ∧ ya.getD c.yv ≤ c.yv_max <;>
    by_cases he : dev.errCode = 0 <;>
      simp [set_velocity, send_run, getCtrl, modifyCtrl, throwErr, bind_eq,
        pure_eq, M.bind, M.pure, hr, he]

theorem set_acceleration_run (dev : Device) (c : Ctrl) (xa ya : Option ℚ) :
    set_acceleration dev xa ya c =
      (if 0 ≤ xa.getD c.xa ∧ xa.getD c.xa ≤ c.xa_max ∧
          0 ≤ ya.getD c.ya ∧ ya.getD c.ya ≤ c.ya_max then
        ⟨{ c with xa := xa.getD c.xa, ya := ya.getD c.ya },
          [.cmd "ACC" [1, xa.getD c.xa, 2, ya.getD c.ya], .errq],
          if dev.errCode = 0 then .ok () else .error (.device dev.errCode)⟩
      else ⟨{ c with xa := xa.getD c.xa, ya := ya.getD c.ya }, [],
        .error .range⟩) := by
  by_cases hr : 0 ≤ xa.getD c.xa ∧ xa.getD c.xa ≤ c.xa_max ∧
      0 ≤ ya.getD c.ya ∧ ya.getD c.ya ≤ c.ya_max <;>
    by_cases he : dev.errCode = 0 <;>
      simp [set_acceleration, send_run, getCtrl, modifyCtrl, throwErr,
        bind_eq, pure_eq, M.bind, M.pure, hr, he]

theorem set_deceleration_run (dev : Device) (c : Ctrl) (xa ya : Option ℚ) :
    set_deceleration dev xa ya c =
      (if 0 ≤ xa.getD c.xd ∧ xa.getD c.xd ≤ c.xd_max ∧
          0 ≤ ya.getD c.yd ∧ ya.getD c.yd ≤ c.yd_max then
        ⟨{ c with xd := xa.getD c.xd, yd := ya.getD c.yd },
          [.cmd "ACC" [1, xa.getD c.xd, 2, ya.getD c.yd], .errq],
          if dev.errCode = 0 then .ok () else .error (.device dev.errCode)⟩
      else ⟨{ c with xd := xa.getD c.xd, yd := ya.getD c.yd }, [],
        .error .range⟩) := by
  by_cases hr : 0 ≤ xa.getD c.xd ∧ xa.getD c.xd ≤ c.xd_max ∧
      0 ≤ ya.getD c.yd ∧ ya.getD c.yd ≤ c.yd_max <;>
    by_cases he : dev.errCode = 0 <;>
      simp [set_deceleration, send_run, getCtrl, modifyCtrl, throwErr,
        bind_eq, pure_eq, M.bind, M.pure, hr, he]

theorem set_settling_time_ms_run (dev : Device) (c : Ctrl) (xa ya : Option ℚ) :
    set_settling_time_ms dev xa ya c =
      (if 0 ≤ xa.getD c.xst ∧ xa.getD c.xst ≤ 1000 ∧
          0 ≤ ya.getD c.yst ∧ ya.getD c.yst ≤ 1000 then
        ⟨{ c with xst := xa.getD c.xst, yst := ya.getD c.yst },
          [.cmd "SPA" [1, 0x3F, xa.getD c.xst / 1000, 2, 0x3F,
            ya.getD c.yst / 1000], .errq],
          if dev.errCode = 0 then .ok () else .error (.device dev.errCode)⟩
      else ⟨{ c with xst := xa.getD c.xst, yst := ya.getD c.yst }, [],
        .error .range⟩) := by
  by_cases hr : 0 ≤ xa.getD c.xst ∧ xa.getD c.xst ≤ 1000 ∧
      0 ≤ ya.getD c.yst ∧ ya.getD c.yst ≤ 1000 <;>
    by_cases he : dev.errCode = 0 <;>
      simp [set_settling_time_ms, send_run, getCtrl, modifyCtrl, throwErr,
        bind_eq, pure_eq, M.bind, M.pure, hr, he]

theorem set_positional_tolerance_um_run (dev : Device) (c : Ctrl)
    (xa ya : Option ℚ) (margin : ℚ) :
    set_positional_tolerance_um dev xa ya margin c =
      (let nx := micrometers_to_counts (xa.getD c.xpt) c.x_ecpu
       let ny := micrometers_to_counts (ya.getD c.ypt) c.x_ecpu
       let mc := micrometers_to_counts margin c.x_ecpu
       if hb : nx < c.xptc_max ∧ ny ≤ c.yptc_max then
         if hm : nx - mc > 0 ∧ ny - mc > 0 then
           if dev.errCode = 0 then
             ⟨{ c with xptc := nx, yptc := ny, xpt := counts_to_micrometers nx c.x_ecpu, ypt := counts_to_micrometers ny c.y_ecpu },
               [.cmd "SPA" [1, 0x407, (nx : ℚ), 2, 0x407, (ny : ℚ)], .errq,
                .cmd "SPA" [1, 0x406, (nx : ℚ) - margin, 2, 0x406,
                  (ny : ℚ) - margin], .errq],
               .ok ()⟩
           else
             ⟨{ c with xptc := nx, yptc := ny },
               [.cmd "SPA" [1, 0x407, (nx : ℚ), 2, 0x407, (ny : ℚ)], .errq],
               .error (.device dev.errCode)⟩
         else ⟨{ c with xptc := nx, yptc := ny }, [], .error .range⟩
       else ⟨{ c with xptc := nx, yptc := ny }, [], .error .range⟩) := by
  by_cases hb : micrometers_to_counts (xa.getD c.xpt) c.x_ecpu < c.xptc_max ∧
      micrometers_to_counts (ya.getD c.ypt) c.x_ecpu ≤ c.yptc_max <;>
    by_cases hm : micrometers_to_counts margin c.x_ecpu
        < micrometers_to_counts (xa.getD c.xpt) c.x_ecpu ∧
      micrometers_to_counts margin c.x_ecpu
        < micrometers_to_counts (ya.getD c.ypt) c.x_ecpu <;>
    by_cases he : dev.errCode = 0 <;>
      simp [set_positional_tolerance_um, send_run, getCtrl, modifyCtrl,
        throwErr, bind_eq, pure_eq, M.bind, M.pure, sub_pos, hb, hm, he]

/-- C6: for in-range deceleration values and a clean device, the
deceleration setter writes the ACC command mnemonic (the acceleration
command code, not a distinct deceleration code) carrying the requested
deceleration values for both axes, and the cached deceleration fields
hold those values afterwards. -/
theorem C6_set_deceleration_sends_acc (dev : Device) (c : Ctrl) (xd yd : ℚ)
    (h : dev.errCode = 0)
    (hr : 0 ≤ xd ∧ xd ≤ c.xd_max ∧ 0 ≤ yd ∧ yd ≤ c.yd_max) :
    (set_deceleration dev (some xd) (some yd) c).events
      = [.cmd "ACC" [1, xd, 2, yd], .errq] ∧
    (set_deceleration dev (some xd) (some yd) c).ctrl
      = { c with xd := xd, yd := yd } ∧
    (set_deceleration dev (some xd) (some yd) c).result = .ok () := by
  rw [set_deceleration_run]
  simp [hr, h]

/-- Witness for C6: setting deceleration (100, 100) on the concrete state
writes ACC and caches the values. -/
theorem C6_set_deceleration_sends_acc_witness :
    (set_deceleration okDev (some 100) (some 100) baseCtrl).events
      = [.cmd "ACC" [1, 100, 2, 100], .errq] ∧
    (set_deceleration okDev (some 100) (some 100) baseCtrl).ctrl
      = { baseCtrl with xd := 100, yd := 100 } ∧
    (set_deceleration okDev (some 100) (some 100) baseCtrl).result = .ok () :=
  C6_set_deceleration_sends_acc okDev baseCtrl 100 100 rfl
    (by norm_num [baseCtrl])

/-- C1 (amended): the tolerance setter rejects, before any bytes are
written, exactly by its two assertions: the x exit counts reaching the x
upper bound (strict rejection at equality), the y exit counts strictly
exceeding the y upper bound (equality is accepted: the source compares
the axes asymmetrically), or a margin-adjusted count not positive; on
rejection the micrometer caches xpt and ypt are unchanged, but the count
caches xptc and yptc have already been overwritten with the newly
computed counts. -/
theorem C1_tolerance_rejection (dev : Device) (c : Ctrl) (xa ya : Option ℚ)
    (margin : ℚ)
    (hrej : c.xptc_max ≤ micrometers_to_counts (xa.getD c.xpt) c.x_ecpu ∨
        c.yptc_max < micrometers_to_counts (ya.getD c.ypt) c.x_ecpu ∨
        micrometers_to_counts (xa.getD c.xpt) c.x_ecpu
          - micrometers_to_counts margin c.x_ecpu ≤ 0 ∨
        micrometers_to_counts (ya.getD c.ypt) c.x_ecpu
          - micrometers_to_counts margin c.x_ecpu ≤ 0) :
    (set_positional_tolerance_um dev xa ya margin c).result = .error .range ∧
    (set_positional_tolerance_um dev xa ya margin c).events = [] ∧
    (set_positional_tolerance_um dev xa ya margin c).ctrl =
      { c with xptc := micrometers_to_counts (xa.getD c.xpt) c.x_ecpu,
               yptc := micrometers_to_counts (ya.getD c.ypt) c.x_ecpu } := by
  rw [set_positional_tolerance_um_run]
  by_cases hb : micrometers_to_counts (xa.getD c.xpt) c.x_ecpu < c.xptc_max ∧
      micrometers_to_counts (ya.getD c.ypt) c.x_ecpu ≤ c.yptc_max
  · have hm : ¬(micrometers_to_counts margin c.x_ecpu
        < micrometers_to_counts (xa.getD c.xpt) c.x_ecpu ∧
      micrometers_to_counts margin c.x_ecpu
        < micrometers_to_counts (ya.getD c.ypt) c.x_ecpu) := by
      omega
    simp [sub_pos, hb, hm]
  · simp [hb]

/-- Witness for C1 at a concrete rejected call: requesting x tolerance
200 um with a 100-count bound rejects with no bytes written, the count
cache overwritten and the micrometer cache intact. -/
theorem C1_tolerance_rejection_witness :
    (set_positional_tolerance_um okDev (some 200) (some 2) (1/10)
      baseCtrl).result = .error .range ∧
    (set_positional_tolerance_um okDev (some 200) (some 2) (1/10)
      baseCtrl).events = [] ∧
    (set_positional_tolerance_um okDev (some 200) (some 2) (1/10)
      baseCtrl).ctrl.xptc = 200 ∧
    (set_positional_tolerance_um okDev (some 200) (some 2) (1/10)
      baseCtrl).ctrl.xpt = 2 := by
  have h := C1_tolerance_rejection okDev baseCtrl (some 200) (some 2) (1/10)
    (by norm_num [baseCtrl, micrometers_to_counts, truncQ])
  refine ⟨h.1, h.2.1, ?_, ?_⟩ <;>
    rw [h.2.2] <;>
    norm_num [baseCtrl, micrometers_to_counts, truncQ]

/-- Counterexample for C1 as stated: with a y bound of 10 counts, a
request whose computed y exit counts equal the bound (10 at and above
which the claim demands rejection) is accepted by the source, which
compares the y axis non-strictly: the call succeeds and writes the two
SPA commands. -/
theorem C1_counterexample :
    (set_positional_tolerance_um okDev (some 5) (some 10) (1/10)
      c1Ctrl).result = .ok () ∧
    (set_positional_tolerance_um okDev (some 5) (some 10) (1/10)
      c1Ctrl).events ≠ [] ∧
    c1Ctrl.yptc_max ≤ micrometers_to_counts ((some (10 : ℚ)).getD c1Ctrl.ypt)
      c1Ctrl.x_ecpu := by
  rw [set_positional_tolerance_um_run]
  norm_num [c1Ctrl, baseCtrl, okDev, micrometers_to_counts,
    counts_to_micrometers, truncQ]
  exact List.cons_ne_nil _ _

/-- C8: the y exit counts are computed from the x axis calibration
(source line 274), not the y calibration: with 10000 counts per mm on x
and 1000 on y, requesting a y tolerance of 1 um stores 10 counts (the x
conversion) instead of 1, and the cached y tolerance becomes 10 um, nine
y counts away from the request; the send succeeds. -/
theorem C8_y_counts_use_x_calibration :
    (set_positional_tolerance_um okDev (some 1) (some 1) 0 c8Ctrl).ctrl.yptc
      = 10 ∧
    micrometers_to_counts 1 c8Ctrl.y_ecpu = 1 ∧
    (set_positional_tolerance_um okDev (some 1) (some 1) 0 c8Ctrl).ctrl.ypt
      = 10 ∧
    (set_positional_tolerance_um okDev (some 1) (some 1) 0 c8Ctrl).result
      = .ok () := by
  rw [set_positional_tolerance_um_run]
  norm_num [c8Ctrl, baseCtrl, okDev, micrometers_to_counts,
    counts_to_micrometers, truncQ]

/-- C3 (amended): every parameter setter defaults an omitted per-axis
argument to the current cached value and raises the range assertion when
a supplied value violates the cached bound; but the cache is written
immediately after defaulting, before validation and before the send, so
on a range rejection (nothing sent) and on a nonzero ERR? reply (the
command was sent and DeviceError carries the code) the cache already
holds the new values; only the micrometer tolerance mirrors xpt and ypt
are recomputed after the sends and stay unchanged when the tolerance
transaction fails. -/
theorem C3_setter_cache_semantics :
    (∀ (dev : Device) (c : Ctrl) (margin : ℚ),
      set_velocity dev none none c
        = set_velocity dev (some c.xv) (some c.yv) c ∧
      set_acceleration dev none none c
        = set_acceleration dev (some c.xa) (some c.ya) c ∧
      set_deceleration dev none none c
        = set_deceleration dev (some c.xd) (some c.yd) c ∧
      set_settling_time_ms dev none none c
        = set_settling_time_ms dev (some c.xst) (some c.yst) c ∧
      set_positional_tolerance_um dev none none margin c
        = set_positional_tolerance_um dev (some c.xpt) (some c.ypt) margin c) ∧
    (∀ (dev : Device) (c : Ctrl) (a b : ℚ),
      (¬(0 ≤ a ∧ a ≤ c.xv_max ∧ 0 ≤ b ∧ b ≤ c.yv_max) →
        (set_velocity dev (some a) (some b) c).result = .error .range ∧
        (set_velocity dev (some a) (some b) c).events = [] ∧
        (set_velocity dev (some a) (some b) c).ctrl
          = { c with xv := a, yv := b }) ∧
      (¬(0 ≤ a ∧ a ≤ c.xa_max ∧ 0 ≤ b ∧ b ≤ c.ya_max) →
        (set_acceleration dev (some a) (some b) c).result = .error .range ∧
        (set_acceleration dev (some a) (some b) c).events = [] ∧
        (set_acceleration dev (some a) (some b) c).ctrl
          = { c with xa := a, ya := b }) ∧
      (¬(0 ≤ a ∧ a ≤ c.xd_max ∧ 0 ≤ b ∧ b ≤ c.yd_max) →
        (set_deceleration dev (some a) (some b) c).result = .error .range ∧
        (set_deceleration dev (some a) (some b) c).events = [] ∧
        (set_deceleration dev (some a) (some b) c).ctrl
          = { c with xd := a, yd := b }) ∧
      (¬(0 ≤ a ∧ a ≤ 1000 ∧ 0 ≤ b ∧ b ≤ 1000) →
        (set_settling_time_ms dev (some a) (some b) c).result
          = .error .range ∧
        (set_settling_time_ms dev (some a) (some b) c).events = [] ∧
        (set_settling_time_ms dev (some a) (some b) c).ctrl
          = { c with xst := a, yst := b })) ∧
    (∀ (dev : Device) (c : Ctrl) (a b : ℚ), dev.errCode ≠ 0 →
      ((0 ≤ a ∧ a ≤ c.xv_max ∧ 0 ≤ b ∧ b ≤ c.yv_max) →
        (set_velocity dev (some a) (some b) c).result
          = .error (.device dev.errCode) ∧
        (set_velocity dev (some a) (some b) c).ctrl
          = { c with xv := a, yv := b }) ∧
      ((0 ≤ a ∧ a ≤ c.xa_max ∧ 0 ≤ b ∧ b ≤ c.ya_max) →
        (set_acceleration dev (some a) (some b) c).result
          = .error (.device dev.errCode) ∧
        (set_acceleration dev (some a) (some b) c).ctrl
          = { c with xa := a, ya := b }) ∧
      ((0 ≤ a ∧ a ≤ c.xd_max ∧ 0 ≤ b ∧ b ≤ c.yd_max) →
        (set_deceleration dev (some a) (some b) c).result
          = .error (.device dev.errCode) ∧
        (set_deceleration dev (some a) (some b) c).ctrl
          = { c with xd := a, yd := b }) ∧
      ((0 ≤ a ∧ a ≤ 1000 ∧ 0 ≤ b ∧ b ≤ 1000) →
        (set_settling_time_ms dev (some a) (some b) c).result
          = .error (.device dev.errCode) ∧
        (set_settling_time_ms dev (some a) (some b) c).ctrl
          = { c with xst := a, yst := b })) ∧
    (∀ (dev : Device) (c : Ctrl) (a b margin : ℚ), dev.errCode ≠ 0 →
      micrometers_to_counts a c.x_ecpu < c.xptc_max →
      micrometers_to_counts b c.x_ecpu ≤ c.yptc_max →
      micrometers_to_counts margin c.x_ecpu
        < micrometers_to_counts a c.x_ecpu →
      micrometers_to_counts margin c.x_ecpu
        < micrometers_to_counts b c.x_ecpu →
      (set_positional_tolerance_um dev (some a) (some b) margin c).result
        = .error (.device dev.errCode) ∧
      (set_positional_tolerance_um dev (some a) (some b) margin c).ctrl
        = { c with xptc := micrometers_to_counts a c.x_ecpu,
                   yptc := micrometers_to_counts b c.x_ecpu }) := by
  refine ⟨?_, ?_, ?_, ?_⟩
  · intro dev c margin
    refine ⟨?_, ?_, ?_, ?_, ?_⟩ <;>
      simp [set_velocity_run, set_acceleration_run, set_deceleration_run,
        set_settling_time_ms_run, set_positional_tolerance_um_run]
  · intro dev c a b
    refine ⟨?_, ?_, ?_, ?_⟩ <;> intro hr <;>
      simp [set_velocity_run, set_acceleration_run, set_deceleration_run,
        set_settling_time_ms_run, hr]
  · intro dev c a b he
    refine ⟨?_, ?_, ?_, ?_⟩ <;> intro hr <;>
      simp [set_velocity_run, set_acceleration_run, set_deceleration_run,
        set_settling_time_ms_run, hr, he]
  · intro dev c a b margin he h1 h2 h3 h4
    rw [set_positional_tolerance_um_run]
    simp only [Option.getD_some]
    have hb : micrometers_to_counts a c.x_ecpu < c.xptc_max ∧
        micrometers_to_counts b c.x_ecpu ≤ c.yptc_max := ⟨h1, h2⟩
    have hmc : micrometers_to_counts margin c.x_ecpu
          < micrometers_to_counts a c.x_ecpu ∧
        micrometers_to_counts margin c.x_ecpu
          < micrometers_to_counts b c.x_ecpu := ⟨h3, h4⟩
    simp [sub_pos, hb, hmc, he]

/-- Counterexample for C3 as stated: against a device whose ERR? reply is
5, an in-range set_velocity raises DeviceError 5 and yet the velocity
cache has been updated to the new value by the failed transaction (the
source assigns the cache on line 309, before the send on line 313). -/
theorem C3_counterexample :
    (set_velocity errDev (some 7) (some 7) baseCtrl).result
      = .error (.device 5) ∧
    (set_velocity errDev (some 7) (some 7) baseCtrl).ctrl.xv = 7 ∧
    baseCtrl.xv = 1 := by
  refine ⟨?_, ?_, rfl⟩ <;> rfl

/-- Witness for C3 at concrete calls: omitted arguments default to the
cache, an out-of-range velocity is rejected with nothing written, and an
in-range velocity against a failing device raises DeviceError 5 with the
cache updated. -/
theorem C3_setter_cache_semantics_witness :
    set_velocity okDev none none baseCtrl
      = set_velocity okDev (some baseCtrl.xv) (some baseCtrl.yv) baseCtrl ∧
    (set_velocity okDev (some 200) (some 1) baseCtrl).result
      = .error .range ∧
    (set_velocity okDev (some 200) (some 1) baseCtrl).events = [] ∧
    (set_velocity errDev (some 5) (some 4) baseCtrl).result
      = .error (.device errDev.errCode) ∧
    (set_velocity errDev (some 5) (some 4) baseCtrl).ctrl
      = { baseCtrl with xv := 5, yv := 4 } := by
  have hd := (C3_setter_cache_semantics.1 okDev baseCtrl 0).1
  have hr := (C3_setter_cache_semantics.2.1 okDev baseCtrl 200 1).1
    (by norm_num [baseCtrl])
  have he := (C3_setter_cache_semantics.2.2.1 errDev baseCtrl 5 4
    (by norm_num [errDev])).1 (by norm_num [baseCtrl])
  exact ⟨hd, hr.1, hr.2.1, he.1, he.2⟩

/-- Status polls are not joystick-disable writes. -/
theorem countP_isHinOff_replicate_poll (n : Nat) :
    List.countP isHinOff (List.replicate n Event.poll) = 0 := by
  induction n with
  | zero => simp
  | succ k ih => simp [List.replicate_succ, List.countP_cons, isHinOff, ih]

/-- Status polls are not joystick-enable writes. -/
theorem countP_isHinOn_replicate_poll (n : Nat) :
    List.countP isHinOn (List.replicate n Event.poll) = 0 := by
  induction n with
  | zero => simp
  | succ k ih => simp [List.replicate_succ, List.countP_cons, isHinOn, ih]

/-- Running move_mm on an accepted target with a clean device: the
completion of any outstanding move, the joystick-disable writes, the
relative-move position query, the MOV write and, when blocking, the
completion wait; the position cache holds the target and the moving flag
is set exactly when the call does not block. -/
theorem move_mm_run_accept (dev : Device) (c : Ctrl) (mx my : ℚ)
    (relative block : Bool) (h : dev.errCode = 0)
    (hx : c.x_min ≤ (if relative then dev.posX + mx else mx) ∧
      (if relative then dev.posX + mx else mx) ≤ c.x_max)
    (hy : c.y_min ≤ (if relative then dev.posY + my else my) ∧
      (if relative then dev.posY + my else my) ≤ c.y_max) :
    move_mm dev mx my relative block c =
      ⟨{ c with x := if relative then dev.posX + mx else mx,
                y := if relative then dev.posY + my else my,
                moving := !block },
        (if c.moving then finPollEvents dev c.joystick_enabled else []) ++
        (if c.joystick_enabled then hinOffEvents else []) ++
        (if relative then [Event.cmd "MOV?" [1, 2], .errq] else []) ++
        [.cmd "MOV" [1, (if relative then dev.posX + mx else mx), 2,
          (if relative then dev.posY + my else my)], .errq] ++
        (if block then finPollEvents dev c.joystick_enabled else []),
        .ok ()⟩ := by
  cases relative <;> cases block <;>
    simp only [Bool.false_eq_true, if_true, if_false] at hx hy ⊢ <;>
    by_cases hm : c.moving <;> by_cases hj : c.joystick_enabled <;>
      simp [move_mm, finish_moving_run_ok, send_run, get_position_mm_run,
        getCtrl, modifyCtrl, throwErr, bind_eq, pure_eq, M.bind, M.pure,
        finPollEvents, hinOffEvents, h, hm, hj, hx, hy]

/-- C2 (amended): across two move_mm calls, the first non-blocking, with
the joystick flag set and the stage idle at the outset: the first call
leaves the moving flag set and writes no status poll; the second call
first writes the completion polls of the first move (driving the flag
back to false) before its own MOV write; the joystick-disable pair is
written exactly twice across the pair (once per call: 4 HIN-off writes)
and the re-enable pair exactly twice (once when the first move finishes
at the start of the second call, once after the second move settles); the
pair ends settled with the flag still set. -/
theorem C2_two_nonblocking_moves (dev : Device) (c : Ctrl)
    (x1 y1 x2 y2 : ℚ) (rel1 rel2 : Bool) (h : dev.errCode = 0)
    (hm : c.moving = false) (hj : c.joystick_enabled = true)
    (h1x : c.x_min ≤ (if rel1 then dev.posX + x1 else x1) ∧
      (if rel1 then dev.posX + x1 else x1) ≤ c.x_max)
    (h1y : c.y_min ≤ (if rel1 then dev.posY + y1 else y1) ∧
      (if rel1 then dev.posY + y1 else y1) ≤ c.y_max)
    (h2x : c.x_min ≤ (if rel2 then dev.posX + x2 else x2) ∧
      (if rel2 then dev.posX + x2 else x2) ≤ c.x_max)
    (h2y : c.y_min ≤ (if rel2 then dev.posY + y2 else y2) ∧
      (if rel2 then dev.posY + y2 else y2) ≤ c.y_max) :
    (move_mm dev x1 y1 rel1 false c).ctrl.moving = true ∧
    (move_mm dev x1 y1 rel1 false c).events
      = hinOffEvents ++
        (if rel1 then [Event.cmd "MOV?" [1, 2], .errq] else []) ++
        [.cmd "MOV" [1, (if rel1 then dev.posX + x1 else x1), 2,
          (if rel1 then dev.posY + y1 else y1)], .errq] ∧
    (move_mm dev x2 y2 rel2 true
        (move_mm dev x1 y1 rel1 false c).ctrl).events
      = finPollEvents dev true ++ hinOffEvents ++
        (if rel2 then [Event.cmd "MOV?" [1, 2], .errq] else []) ++
        [.cmd "MOV" [1, (if rel2 then dev.posX + x2 else x2), 2,
          (if rel2 then dev.posY + y2 else y2)], .errq] ++
        finPollEvents dev true ∧
    (move_mm dev x2 y2 rel2 true
        (move_mm dev x1 y1 rel1 false c).ctrl).ctrl.moving = false ∧
    (move_mm dev x2 y2 rel2 true
        (move_mm dev x1 y1 rel1 false c).ctrl).ctrl.joystick_enabled
      = true ∧
    ((move_mm dev x1 y1 rel1 false c).events ++
      (move_mm dev x2 y2 rel2 true
        (move_mm dev x1 y1 rel1 false c).ctrl).events).countP isHinOff
      = 4 ∧
    ((move_mm dev x1 y1 rel1 false c).events ++
      (move_mm dev x2 y2 rel2 true
        (move_mm dev x1 y1 rel1 false c).ctrl).events).countP isHinOn
      = 4 := by
  have r1 := move_mm_run_accept dev c x1 y1 rel1 false h h1x h1y
  rw [r1]
  simp only [Bool.not_false]
  have h2xb : ({ c with
        x := if rel1 then dev.posX + x1 else x1,
        y := if rel1 then dev.posY + y1 else y1,
        moving := true } : Ctrl).x_min
        ≤ (if rel2 then dev.posX + x2 else x2) ∧
      (if rel2 then dev.posX + x2 else x2)
        ≤ ({ c with
            x := if rel1 then dev.posX + x1 else x1,
            y := if rel1 then dev.posY + y1 else y1,
            moving := true } : Ctrl).x_max := by
    simpa using h2x
  have h2yb : ({ c with
        x := if rel1 then dev.posX + x1 else x1,
        y := if rel1 then dev.posY + y1 else y1,
        moving := true } : Ctrl).y_min
        ≤ (if rel2 then dev.posY + y2 else y2) ∧
      (if rel2 then dev.posY + y2 else y2)
        ≤ ({ c with
            x := if rel1 then dev.posX + x1 else x1,
            y := if rel1 then dev.posY + y1 else y1,
            moving := true } : Ctrl).y_max := by
    simpa using h2y
  have r2 := move_mm_run_accept dev
    { c with
      x := if rel1 then dev.posX + x1 else x1,
      y := if rel1 then dev.posY + y1 else y1,
      moving := true } x2 y2 rel2 true h h2xb h2yb
  rw [r2]
  refine ⟨by trivial, ?_, ?_, by simp, by simp [hj], ?_, ?_⟩
  · simp [hm, hj]
  · simp [hj]
  · cases rel1 <;> cases rel2 <;>
      simp [hm, hj, finPollEvents, hinOffEvents, isHinOff, isHinOn,
        List.countP_append, List.countP_cons,
        countP_isHinOff_replicate_poll, countP_isHinOn_replicate_poll]
  · cases rel1 <;> cases rel2 <;>
      simp [hm, hj, finPollEvents, hinOffEvents, isHinOff, isHinOn,
        List.countP_append, List.countP_cons,
        countP_isHinOff_replicate_poll, countP_isHinOn_replicate_poll]

/-- Counterexample for C2 as stated: two concrete absolute moves, the
first non-blocking, starting idle with the joystick flag set, write the
HIN joystick-disable pair twice (4 writes, not the 2 of a single disable)
and the re-enable pair twice (4 writes), because move_mm never clears the
cached flag and so disables again on the second call after the completion
handling re-enabled. -/
theorem C2_counterexample :
    ((move_mm okDev 1 1 false false baseCtrl).events ++
      (move_mm okDev 2 2 false true
        (move_mm okDev 1 1 false false baseCtrl).ctrl).events).countP
      isHinOff = 4 ∧
    ¬((move_mm okDev 1 1 false false baseCtrl).events ++
      (move_mm okDev 2 2 false true
        (move_mm okDev 1 1 false false baseCtrl).ctrl).events).countP
      isHinOff = 2 ∧
    ((move_mm okDev 1 1 false false baseCtrl).events ++
      (move_mm okDev 2 2 false true
        (move_mm okDev 1 1 false false baseCtrl).ctrl).events).countP
      isHinOn = 4 := by
  refine ⟨?_, ?_, ?_⟩ <;> decide

/-- Witness for C2 at concrete moves (1,1) then (2,2), absolute: the
first call leaves a move outstanding and the pair writes 4 HIN-off and 4
HIN-on commands. -/
theorem C2_two_nonblocking_moves_witness :
    (move_mm okDev 1 1 false false baseCtrl).ctrl.moving = true ∧
    ((move_mm okDev 1 1 false false baseCtrl).events ++
      (move_mm okDev 2 2 false true
        (move_mm okDev 1 1 false false baseCtrl).ctrl).events).countP
      isHinOn = 4 := by
  have h := C2_two_nonblocking_moves okDev baseCtrl 1 1 2 2 false false
    rfl rfl rfl (by norm_num [baseCtrl, okDev]) (by norm_num [baseCtrl, okDev])
    (by norm_num [baseCtrl, okDev]) (by norm_num [baseCtrl, okDev])
  exact ⟨h.1, h.2.2.2.2.2.2⟩

end PiC867
